import Mathlib

/-!
# Verification of `core_utils/lending.py`

A shallow embedding of the lending utilities of the repository
(`src/layers/core/python/core_utils/lending.py`) together with proofs of the
behavioural properties the specification states about them.

The store (DynamoDB accessed through boto3) is modelled explicitly: a table is
a function from a query (and an optional pagination start key) to a response
page, and the helpers that issue store calls are parametrised by that function.
Python dictionaries are modelled as insertion-ordered association lists, which
matches CPython's dictionary semantics (`dict.update` replaces the value of an
existing key in place, otherwise appends a new entry at the end).
-/

set_option autoImplicit false

namespace Lending

/-! ## Association lists: the model of Python dictionaries -/

/-- Lookup of a key in an insertion-ordered association list (Python `d.get(k)`). -/
def alookup {α : Type} : List (String × α) → String → Option α
  | [], _ => none
  | (k', v) :: t, k => if k' = k then some v else alookup t k

/-- Python `d.update({k: v})` / `d[k] = v`: replace the value of an existing key
in place, otherwise append the new entry at the end. -/
def dictUpdate {α : Type} : List (String × α) → String → α → List (String × α)
  | [], k, v => [(k, v)]
  | (k', v') :: t, k, v => if k' = k then (k', v) :: t else (k', v') :: dictUpdate t k v

/-! ## The store model for paginated queries

`get_items_by_query_from_dynamo` builds a boto3 query dictionary and issues it
repeatedly through `recursive_query`, following `LastEvaluatedKey` tokens.
A page is what one `table.query(**query)` call returns. -/

/-- One response of `table.query`: HTTP status code, the `Items` list, and the
optional `LastEvaluatedKey` continuation token. -/
structure Page (α : Type) where
  status : Nat
  items : List α
  lastEvaluatedKey : Option Nat
  deriving Repr, DecidableEq

/-- The boto3 query dictionary built by `get_items_by_query_from_dynamo`
(lines 966-971 of `lending.py`): index name and key condition always present,
filter expression and `ScanIndexForward` only when set. -/
structure DynamoQuery where
  indexName : String
  keyConditionExpression : String
  filterExpression : Option String
  scanIndexForward : Option Bool
  deriving Repr, DecidableEq

/-- A table answers a query, possibly with an `ExclusiveStartKey` token, with a page. -/
def Table (α : Type) : Type := DynamoQuery → Option Nat → Page α

/-- Lines 966-971 of `lending.py`: the query starts from the index name and the
key condition; `FilterExpression` is added when a filter is given, and
`ScanIndexForward` is added only when the argument is truthy — Python's
`if scan_index_forward:` drops both `None` and `False`. -/
def build_query (index_name : String) (kce : String) (fce : Option String)
    (sif : Option Bool) : DynamoQuery :=
  { indexName := index_name
    keyConditionExpression := kce
    filterExpression := fce
    scanIndexForward := match sif with
      | some true => some true
      | _ => none }

/-- Lines 1152-1179 of `lending.py` (`recursive_query`): raise unless the page
status is 200, accumulate the page's items, and while a `LastEvaluatedKey` is
present re-issue the query with that token as `ExclusiveStartKey`. The `fuel`
argument models Python's recursion limit: running out of fuel is the
`RecursionError` that the interpreter would raise on an unbounded chain. -/
def recursive_query {α : Type} (next : Nat → Page α) :
    Nat → Page α → List α → Except String (List α)
  | fuel, response, rows =>
    if response.status ≠ 200 then
      .error "recursive_query failed, the responses status_code is different from 200"
    else
      let rows := rows ++ response.items
      match response.lastEvaluatedKey with
      | none => .ok rows
      | some k =>
        match fuel with
        | 0 => .error "maximum recursion depth exceeded"
        | fuel + 1 => recursive_query next fuel (next k) rows

/-- The chain of pages that `recursive_query` visits from a starting page:
the page itself, then — as long as a continuation token is present — the pages
the token leads to. `none` when the chain does not close within `fuel` steps. -/
def chainOf {α : Type} (next : Nat → Page α) : Nat → Page α → Option (List (Page α))
  | fuel, p =>
    match p.lastEvaluatedKey with
    | none => some [p]
    | some k =>
      match fuel with
      | 0 => none
      | fuel + 1 => (chainOf next fuel (next k)).map (p :: ·)

/-- Items of a list of pages, in page-then-row order. -/
def pagesItems {α : Type} (ps : List (Page α)) : List α :=
  ps.foldr (fun p acc => p.items ++ acc) []

/-- Result of `validate_response_dynamo_query`: either the whole data list
(`complete=True`) or its first element. -/
inductive VOut (α : Type) where
  | whole (xs : List α)
  | single (x : α)
  deriving Repr, DecidableEq

/-- Lines 363-392 of `lending.py` (`validate_response_dynamo_query`), for a
response whose data key holds `data` (`none` when the key is missing): return
`None` when the status is not 200, the key is missing, or the data is empty
while `valid_empty` is false; otherwise the whole list (`complete=True`) or its
first element. Taking the first element of an empty list (only reachable with
`valid_empty=True, complete=False`) is Python's `IndexError`, modelled as
`.error`. -/
def validate_response_dynamo_query {α : Type} (status : Nat) (data : Option (List α))
    (complete : Bool) (valid_empty : Bool) : Except Unit (Option (VOut α)) :=
  match data with
  | none => .ok none
  | some xs =>
    if status ≠ 200 ∨ (valid_empty = false ∧ xs.length = 0) then
      .ok none
    else if complete then
      .ok (some (.whole xs))
    else
      match xs.head? with
      | some x => .ok (some (.single x))
      | none => .error ()

/-- Lines 944-990 of `lending.py` (`get_items_by_query_from_dynamo`): build the
query, run the paginated lookup, re-raise store failures as `LendingException`,
and validate the accumulated rows with `complete=True` (and the default
`valid_empty=False`, so an empty accumulation comes back as `None`). -/
def get_items_by_query_from_dynamo {α : Type} (table : Table α) (fuel : Nat)
    (index_name : String) (kce : String) (fce : Option String) (sif : Option Bool) :
    Except String (Option (List α)) :=
  let query := build_query index_name kce fce sif
  let first := table query none
  match recursive_query (fun k => table query (some k)) fuel first [] with
  | .error e => .error ("error to get data from dynamo in the table error: " ++ e)
  | .ok rows =>
    match validate_response_dynamo_query 200 (some rows) true false with
    | .ok (some (.whole xs)) => .ok (some xs)
    | .ok (some (.single x)) => .ok (some [x])
    | .ok none => .ok none
    | .error _ => .error "IndexError"

/-! ## The partial-update builder (`update_dynamic_fields_in_dynamo`) -/

/-- A Python value as it can appear in a `_fields_to_update` mapping. A float
carries only its `str` form, which is all that `Decimal(str(value))` consumes;
`vDec` is the resulting fixed-precision decimal. -/
inductive AttrVal where
  | vBool (b : Bool)
  | vInt (n : Int)
  | vFloat (str : String)
  | vDec (str : String)
  | vStr (s : String)
  deriving Repr, DecidableEq

/-- Lines 214-219 of `lending.py`: the per-value coercion chain. Booleans pass
through `bool(...)`, integers through `int(...)` (both identities), floats
become `Decimal(str(value))`, anything else is untouched. -/
def coerce_value : AttrVal → AttrVal
  | .vBool b => .vBool b
  | .vInt n => .vInt n
  | .vFloat s => .vDec s
  | v => v

/-- What `update_dynamic_fields_in_dynamo` has produced by the time it calls
`table.update_item`: the mapping as the caller now sees it (the function
mutates `_fields_to_update` in place, so this is the caller's own dictionary
after the call), the update expression, the expression attribute values, and
the expression attribute names. -/
structure UpdateBuild where
  fields_after : List (String × AttrVal)
  update_expression : String
  values_expression : List (String × AttrVal)
  attribute_names : List (String × String)
  deriving Repr, DecidableEq

/-- Lines 195-231 of `lending.py` (`update_dynamic_fields_in_dynamo`) up to the
store call: `if update_date_field:` is a truthiness test, so only a non-null,
non-empty field name writes the current timestamp into the caller's
`_fields_to_update` dictionary (an in-place `dict.update`) — `None` and the
falsy empty string both skip it; then fold over the mapping building the
`set`-expression, the coerced value dictionary and the attribute-name
dictionary. -/
def update_dynamic_build (_fields_to_update : List (String × AttrVal))
    (update_date_field : Option String) (localtime : String) : UpdateBuild :=
  let fields := match update_date_field with
    | some f =>
      if f = "" then _fields_to_update
      else dictUpdate _fields_to_update f (.vStr localtime)
    | none => _fields_to_update
  let folded := fields.foldl
    (fun (acc : String × List (String × AttrVal) × List (String × String) × Nat) fv =>
      let e := if acc.2.2.2 = 1 then
          acc.1 ++ "#" ++ fv.1 ++ "= :" ++ fv.1
        else
          acc.1 ++ ", #" ++ fv.1 ++ "= :" ++ fv.1
      (e, dictUpdate acc.2.1 (":" ++ fv.1) (coerce_value fv.2),
        dictUpdate acc.2.2.1 ("#" ++ fv.1) fv.1, acc.2.2.2 + 1))
    ("set ", [], [], 1)
  { fields_after := fields
    update_expression := folded.1
    values_expression := folded.2.1
    attribute_names := folded.2.2.1 }

/-- The store's side of `table.update_item` with a `set`-expression: each
assignment overwrites the named attribute of the stored record (modelled on the
value dictionary, whose `:field` keys are in bijection with the field names). -/
def apply_update (record : List (String × AttrVal)) (vals : List (String × AttrVal)) :
    List (String × AttrVal) :=
  vals.foldl (fun r kv => dictUpdate r kv.1 kv.2) record

/-! ## `compare_client_data` (lines 504-631) -/

/-- One `{key: ..., value: ...}` entry of an inswitch metadata list. -/
structure MetaEntry where
  key : Option String
  value : Option String
  deriving Repr, DecidableEq

/-- The `metadata` field of an inswitch profile: a dictionary (the shape the
msisdn endpoint returns), a list of key/value entries (the shape the client-id
endpoint returns), or absent. -/
inductive MetaVal where
  | mdict (entries : List (String × String))
  | mlist (entries : List MetaEntry)
  | mabsent
  deriving Repr, DecidableEq

/-- An inswitch profile as `get_inswitch_client` returns it. -/
structure InswitchClient where
  metadata : MetaVal
  deriving Repr, DecidableEq

/-- A row of the `Client` table as `find_by_client_by_idmts` returns it. -/
structure Client where
  ClientID : String
  Msisdn : Option String
  deriving Repr, DecidableEq

/-- A boto3 write response: whether `ResponseMetadata` is present and its
HTTP status code. -/
structure StoreResp where
  hasMetadata : Bool
  status : Nat
  deriving Repr, DecidableEq

/-- The row `compare_client_data` inserts into `UpdatedCustomerAccounts`. -/
structure AuditRow where
  Id : String
  ClientId : String
  OldMsisdn : String
  NewMsisdn : String
  UpdateDate : String
  Process : String
  deriving Repr, DecidableEq

/-- The environment of one `compare_client_data` call: the inswitch lookup
result (`.error` when the HTTP call itself raises), the `Client`-table lookup,
the responses the store gives to the `Client` update and the audit insert, and
the generated uuid and timestamp. -/
structure CompareEnv where
  inswitch : Except Unit (Option InswitchClient)
  findClient : String → Option Client
  updateResp : StoreResp
  putResp : StoreResp
  uuid : String
  now : String

/-- The `info_response` dictionary of `compare_client_data`; the `client` field
starts as the empty dictionary, modelled as `none`. -/
structure InfoResponse where
  success : Bool
  edited : Bool
  client : Option Client
  msisdn : String
  idmts : String
  deriving Repr, DecidableEq

/-- A `compare_client_data` run: the returned dictionary together with the
trace of store writes it issued — `update_item` calls on `Client` (client id
and new msisdn) and `put_item` calls on `UpdatedCustomerAccounts`. -/
structure CompareResult where
  resp : InfoResponse
  clientWrites : List (String × String)
  auditRows : List AuditRow
  deriving Repr, DecidableEq

/-- Lines 552-561 of `lending.py`: extraction of `(cell_number, idmts)` from
the inswitch profile. With `is_msisdn` the phone is `str(data)` and the id is
`metadata.get('CLIENT_ID')` of the metadata dictionary (`{}` when absent);
otherwise the id and phone are the first `CLIENT_ID` / `MSISDN` entries of the
metadata list (`[0]` raises `IndexError` when missing, `len(None)` raises
`TypeError`, a one-character phone is kept as its single character), and a
missing or dictionary-shaped `metadata` raises. `.error` is any such
exception, caught by the function's catch-all handler. -/
def extract_profile (is_msisdn : Bool) (data : String) (ci : InswitchClient) :
    Except Unit (Option String × Option String) :=
  if is_msisdn then
    match ci.metadata with
    | .mdict es => .ok (some data, alookup es "CLIENT_ID")
    | .mabsent => .ok (some data, none)
    | .mlist _ => .error ()
  else
    match ci.metadata with
    | .mabsent => .error ()
    | .mdict _ => .error ()
    | .mlist entries =>
      match (entries.filter (fun e => e.key = some "CLIENT_ID")).head? with
      | none => .error ()
      | some e =>
        match (entries.filter (fun e => e.key = some "MSISDN")).head? with
        | none => .error ()
        | some e2 =>
          match e2.value with
          | none => .error ()
          | some cn =>
            let cn := if 2 > cn.length ∧ cn.length > 0 then cn.take 1 else cn
            .ok (some cn, e.value)

/-- Lines 504-631 of `lending.py` (`compare_client_data`). Every early return
and every exception caught by the catch-all handler returns the
`info_response` as mutated so far. When the `Client` lookup by id returns no
row, `client.get('Msisdn')` on `None` raises before `info_response["idmts"]`
is assigned and before the explicit `client is None` check, so the handler
returns with `idmts` still `""`. The `Client` write happens only on a msisdn
mismatch; the audit insert only after that write reported HTTP 200; success
and edited are reported only after the audit insert also reported HTTP 200. -/
def compare_client_data (env : CompareEnv) (data : String) (process : String)
    (is_msisdn : Bool) : CompareResult :=
  let info0 : InfoResponse := ⟨false, false, none, "", ""⟩
  match env.inswitch with
  | .error _ => ⟨info0, [], []⟩
  | .ok none => ⟨info0, [], []⟩
  | .ok (some ci) =>
    match extract_profile is_msisdn data ci with
    | .error _ => ⟨info0, [], []⟩
    | .ok (cell_number, idmts) =>
      match cell_number, idmts with
      | some cn, some id0 =>
        let info1 := { info0 with msisdn := cn }
        match env.findClient id0 with
        | none => ⟨info1, [], []⟩
        | some client =>
          let info2 := { info1 with idmts := id0 }
          match client.Msisdn with
          | none => ⟨info2, [], []⟩
          | some m =>
            if m = cn then
              ⟨{ info2 with client := some client, success := true }, [], []⟩
            else
              let writes := [(client.ClientID, cn)]
              if env.updateResp.hasMetadata = false ∨ env.updateResp.status ≠ 200 then
                ⟨info2, writes, []⟩
              else
                let row : AuditRow := ⟨env.uuid, client.ClientID, m, cn, env.now, process⟩
                if env.putResp.hasMetadata = true ∧ env.putResp.status = 200 then
                  ⟨{ info2 with success := true, edited := true }, writes, [row]⟩
                else
                  ⟨info2, writes, [row]⟩
      | _, _ => ⟨info0, [], []⟩

/-! ## `validate_access` (lines 782-941) -/

/-- A row of the `Loan` table as seen by `validate_access`: its `Status` value
(`none` when the key is missing) plus an opaque payload distinguishing rows. -/
structure Loan where
  Status : Option String
  payload : Nat
  deriving Repr, DecidableEq

/-- A row of `lending-loan-offers` as `find_offer_by_client` returns it;
`hasMessage` models `'Message' in offer`. -/
structure Offer where
  StatusPreapproved : Option Int
  statusApp : Option String
  hasMessage : Bool
  deriving Repr, DecidableEq

/-- A row of the `StatusPreaproved` catalog. -/
structure StatusRow where
  Description : Option String
  deriving Repr, DecidableEq

/-- The store as `validate_access` sees it: the loans of the client
(`find_loan_by_client`, `none` on failure), the offer of the customer
(`find_offer_by_client`) and the status catalog (`find_status_by_id`). -/
structure AccessEnv where
  loans : Option (List Loan)
  offer : Option Offer
  findStatus : Int → Option StatusRow

/-- The response dictionary of `validate_access`. `status_app` can be
overwritten with `offer.get('statusApp')`, which may be `None`, hence the
`Option`; its initial value is `"U"`. -/
structure AccessResponse where
  success : Bool
  error : String
  status_preapproved : Int
  flow : String
  current_loan : Option Loan
  status_app : Option String
  total_loans : Nat
  access : Bool
  is_recurrent : Bool
  deriving Repr, DecidableEq

/-- The initial `response` dictionary of `validate_access` (lines 817-827). -/
def accessDefault : AccessResponse :=
  { success := false
    error := ""
    status_preapproved := 0
    flow := "dashboard"
    current_loan := none
    status_app := some "U"
    total_loans := 0
    access := false
    is_recurrent := false }

/-- Membership in the `status_primary` dictionary (lines 832-838). -/
def isPrimaryStatus : Option String → Bool
  | some "IN_PROCESS" => true
  | some "REJECTED" => true
  | some "ACTIVE" => true
  | some "LATE" => true
  | some "EXPIRED" => true
  | _ => false

/-- Membership in the `status_pre_disper` dictionary (lines 828-831). -/
def isPreDisperStatus : Option String → Bool
  | some "IN_PROCESS" => true
  | some "REJECTED" => true
  | _ => false

/-- Membership in the `status_default` dictionary (lines 910-914). -/
def isDefaultStatus : Option String → Bool
  | some "IN_PROCESS" => true
  | some "CLOSED" => true
  | some "REJECTED" => true
  | _ => false

/-- Python's rendering of an optional string inside an f-string. -/
def pyOptStr : Option String → String
  | some s => s
  | none => "None"

/-- Lines 854-887 of `lending.py` (Section 1 of `validate_access`): the loan
scan. With more than one loan, access and success are granted, the loan count
recorded, and `current_loan` is overwritten by each loan whose status sits in
`status_primary`, falling back to `loans[-1]` when none does. With exactly one
loan, a pre-dispersal status routes to onboarding, anything else grants
access, and `current_loan` is `loans[0]`. With no loans the flow is
onboarding. -/
def access_section1 (loans : List Loan) : AccessResponse :=
  if loans.length > 0 then
    if loans.length > 1 then
      let cur := loans.foldl
        (fun acc loan => if isPrimaryStatus loan.Status then some loan else acc) none
      { accessDefault with
          access := true
          success := true
          total_loans := loans.length
          current_loan := match cur with
            | some c => some c
            | none => loans.getLast? }
    else
      match loans.head? with
      | some loan =>
        let base := if isPreDisperStatus loan.Status then
            { accessDefault with total_loans := 1, flow := "onboarding" }
          else
            { accessDefault with total_loans := 1, access := true }
        { base with current_loan := some loan }
      | none => accessDefault
  else
    { accessDefault with flow := "onboarding" }

/-- Lines 889-941 of `lending.py` (Section 2 of `validate_access`): the offer
and status-catalog logic, applied to the Section-1 response. Besides the
response it returns the list of status ids passed to `find_status_by_id`.
A raw `StatusPreapproved` of `5` is replaced by `2` before the catalog lookup,
and the same local variable — now `2` — is what the final
`response["status_preapproved"] = status_preapproved` writes back when the
override branch did not set `5`. -/
def access_section2 (env : AccessEnv) (r1 : AccessResponse) :
    AccessResponse × List Int :=
  match env.offer with
  | none => ({ r1 with error := "Offer not found" }, [])
  | some offer =>
    if offer.hasMessage then ({ r1 with error := "Offer not found" }, [])
    else
      match offer.StatusPreapproved with
      | none => (r1, [])
      | some sp0 =>
        let sp := if sp0 = 5 then 2 else sp0
        match env.findStatus sp with
        | none => ({ r1 with error := "Status preapproved not found" }, [sp])
        | some status =>
          let status_current_loan : Option String :=
            match r1.current_loan with
            | some l => l.Status
            | none => some ""
          let r2 :=
            if offer.statusApp = some "U" ∧ status.Description = some "Oferta" then
              if r1.flow = "dashboard" ∧ isDefaultStatus status_current_loan then
                { r1 with status_preapproved := 5 }
              else r1
            else
              let ra := if r1.flow = "dashboard" ∧ isDefaultStatus status_current_loan then
                  { r1 with is_recurrent := true }
                else r1
              { ra with access := true, status_app := offer.statusApp }
          let r3 := if r2.status_preapproved ≠ 5 then
              { r2 with status_preapproved := sp }
            else r2
          ({ r3 with success := true }, [sp])

/-- Lines 782-941 of `lending.py` (`validate_access`): fail fast on a missing
client or customer id, return the default response when the loan lookup
fails, otherwise run Section 1 and Section 2. The second component is the
trace of status-catalog lookups issued. -/
def validate_access (client_id customer_id : Option String) (env : AccessEnv) :
    AccessResponse × List Int :=
  if client_id = none ∨ customer_id = none then
    ({ accessDefault with
        error := "data to validate access is incorrect client_id: " ++
          pyOptStr client_id ++ " customer_id: " ++ pyOptStr customer_id }, [])
  else
    match env.loans with
    | none => (accessDefault, [])
    | some loans => access_section2 env (access_section1 loans)

/-! ## Helper lemmas -/

/-- A fold that keeps the latest element satisfying `p` computes the last
match of the list: the first match of the reversed list, with the initial
accumulator as fallback. -/
theorem foldl_last_find {α : Type} (p : α → Bool) (l : List α) (init : Option α) :
    l.foldl (fun acc x => if p x then some x else acc) init =
      (match l.reverse.find? p with
        | some y => some y
        | none => init) := by
  induction l generalizing init with
  | nil => simp
  | cons x xs ih =>
    simp only [List.foldl_cons, List.reverse_cons, List.find?_append, ih]
    cases hxs : xs.reverse.find? p with
    | some y => simp [Option.or]
    | none =>
      by_cases hx : p x <;> simp [List.find?_cons, hx, Option.or]

/-- `dictUpdate` writes exactly the given key and leaves every other lookup
unchanged. -/
theorem alookup_dictUpdate {α : Type} (l : List (String × α)) (k k' : String) (v : α) :
    alookup (dictUpdate l k v) k' = if k = k' then some v else alookup l k' := by
  induction l with
  | nil => simp [dictUpdate, alookup]
  | cons hd tl ih =>
    obtain ⟨a, b⟩ := hd
    by_cases h : a = k
    · subst h
      by_cases h' : a = k' <;> simp [dictUpdate, alookup, h']
    · simp only [dictUpdate, if_neg h, alookup, ih]
      by_cases h2 : k = k'
      · simp [h2, show ¬ a = k' from fun hh => h (hh.trans h2.symm)]
      · simp [h2]

/-- Looking an attribute up after `apply_update` yields the value of the last
assignment to that attribute, or the original value when no assignment names
it. -/
theorem alookup_apply_update (r vs : List (String × AttrVal)) (k : String) :
    alookup (apply_update r vs) k =
      (match vs.reverse.find? (fun kv => kv.1 = k) with
        | some kv => some kv.2
        | none => alookup r k) := by
  induction vs generalizing r with
  | nil => simp [apply_update]
  | cons kv vs ih =>
    show alookup (apply_update (dictUpdate r kv.1 kv.2) vs) k = _
    simp only [List.reverse_cons, List.find?_append, ih, alookup_dictUpdate]
    cases hxs : vs.reverse.find? (fun kv => (kv.1 = k : Bool)) with
    | some y => simp [Option.or]
    | none =>
      by_cases hx : kv.1 = k <;> simp [List.find?_cons, hx, Option.or]

/-- Re-applying the same assignment list leaves every attribute unchanged. -/
theorem apply_update_idem_lookup (r vs : List (String × AttrVal)) (k : String) :
    alookup (apply_update (apply_update r vs) vs) k =
      alookup (apply_update r vs) k := by
  rw [alookup_apply_update (apply_update r vs) vs k]
  cases h : vs.reverse.find? (fun kv => kv.1 = k) with
  | some y =>
    rw [alookup_apply_update r vs k, h]
  | none => rfl

/-- `recursive_query` on a page whose continuation chain closes within the
available fuel, with every page reporting 200, accumulates every page's items
in page-then-row order. -/
theorem recursive_query_chainOf {α : Type} (next : Nat → Page α) (fuel : Nat) :
    ∀ (p : Page α) (ps : List (Page α)) (rows : List α),
      chainOf next fuel p = some ps →
      (∀ q ∈ ps, q.status = 200) →
      recursive_query next fuel p rows = .ok (rows ++ pagesItems ps) := by
  induction fuel with
  | zero =>
    intro p ps rows hchain hstatus
    rw [chainOf] at hchain
    rw [recursive_query]
    cases hk : p.lastEvaluatedKey with
    | none =>
      rw [hk] at hchain
      obtain rfl : [p] = ps := Option.some.inj hchain
      rw [if_neg (by simp [hstatus p (by simp)])]
      simp [hk, pagesItems]
    | some k => rw [hk] at hchain; exact absurd hchain (by simp)
  | succ fuel ih =>
    intro p ps rows hchain hstatus
    rw [chainOf] at hchain
    rw [recursive_query]
    cases hk : p.lastEvaluatedKey with
    | none =>
      rw [hk] at hchain
      obtain rfl : [p] = ps := Option.some.inj hchain
      rw [if_neg (by simp [hstatus p (by simp)])]
      simp [hk, pagesItems]
    | some k =>
      rw [hk] at hchain
      obtain ⟨ps', hps', rfl⟩ := Option.map_eq_some'.mp hchain
      rw [if_neg (by simp [hstatus p (by simp)])]
      dsimp only
      rw [ih (next k) ps' (rows ++ p.items) hps'
        (fun q hq => hstatus q (List.mem_cons_of_mem p hq))]
      simp [pagesItems]

/-- With at least two loans, Section 1 grants access and success, records the
count, and sets `current_loan` to the last loan with a `status_primary`
status, falling back to the last fetched loan. -/
theorem access_section1_multi (l : List Loan) (h2 : 2 ≤ l.length) :
    access_section1 l =
      { accessDefault with
          access := true
          success := true
          total_loans := l.length
          current_loan := match l.reverse.find? (fun loan => isPrimaryStatus loan.Status) with
            | some y => some y
            | none => l.getLast? } := by
  unfold access_section1
  rw [if_pos (by omega), if_pos (by omega), foldl_last_find]
  cases h : l.reverse.find? (fun loan => isPrimaryStatus loan.Status) <;> simp

/-- Section 2 never changes `total_loans` or `current_loan`, and never revokes
access or success granted by Section 1. -/
theorem access_section2_preserved (env : AccessEnv) (r1 : AccessResponse) :
    (access_section2 env r1).1.total_loans = r1.total_loans ∧
    (access_section2 env r1).1.current_loan = r1.current_loan ∧
    (r1.access = true → (access_section2 env r1).1.access = true) ∧
    (r1.success = true → (access_section2 env r1).1.success = true) := by
  unfold access_section2
  repeat' split <;> try simp_all

/-! ## Claim theorems -/

/-- C10: for every table, fuel budget, index and key condition, calling
`get_items_by_query_from_dynamo` with `scan_index_forward=False` builds
exactly the same store query, and returns the same result, as calling it with
the parameter omitted (`None`): the falsy flag is dropped by
`if scan_index_forward:` and never forwarded to the store. -/
theorem get_items_scan_index_forward_false {α : Type} (table : Table α) (fuel : Nat)
    (index_name kce : String) (fce : Option String) :
    build_query index_name kce fce (some false) = build_query index_name kce fce none ∧
    get_items_by_query_from_dynamo table fuel index_name kce fce (some false) =
      get_items_by_query_from_dynamo table fuel index_name kce fce none :=
  ⟨rfl, rfl⟩

/-- C2 counterexample: a query whose first page reports 200 with zero items
and no continuation token makes `get_items_by_query_from_dynamo` return
`None` (`Except.ok none`), not the empty sequence the claim states. -/
theorem get_items_empty_first_page_counterexample :
    get_items_by_query_from_dynamo (fun _ _ => ⟨200, [], none⟩ : Table Nat)
        5 "Client-index" "k" none none = .ok none ∧
    get_items_by_query_from_dynamo (fun _ _ => ⟨200, [], none⟩ : Table Nat)
        5 "Client-index" "k" none none ≠ .ok (some []) := by
  refine ⟨rfl, ?_⟩
  intro h
  have h2 : (Except.ok none : Except String (Option (List Nat))) = .ok (some []) :=
    Eq.trans rfl h
  simp at h2

/-- C2 amended: for every paginated query whose first page reports success
(HTTP 200) and contains zero items and no continuation token,
`get_items_by_query_from_dynamo` returns `None` (`Except.ok none`) rather than
raising — callers distinguish "no rows" (a `None` return, not an empty
sequence) from "error" (an exception). -/
theorem get_items_empty_first_page {α : Type} (table : Table α) (fuel : Nat)
    (index_name kce : String) (fce : Option String) (sif : Option Bool)
    (h : table (build_query index_name kce fce sif) none = ⟨200, [], none⟩) :
    get_items_by_query_from_dynamo table fuel index_name kce fce sif = .ok none := by
  simp only [get_items_by_query_from_dynamo]
  rw [h, recursive_query]
  simp [validate_response_dynamo_query]

/-- C2 witness: the amended theorem at a concrete empty table. -/
theorem get_items_empty_first_page_witness :
    get_items_by_query_from_dynamo (fun _ _ => ⟨200, [], none⟩ : Table Nat)
        7 "Client-index" "k" none none = .ok none :=
  get_items_empty_first_page (fun _ _ => ⟨200, [], none⟩) 7 "Client-index" "k"
    none none rfl

/-- C5: whenever the chain of continuation tokens from the first page closes
within the fuel budget and every page reports 200,
`get_items_by_query_from_dynamo` re-issues the query with each token as the
new start position and returns the concatenation of every page's items in
page-then-row order (wrapped in `some`, the accumulation being non-empty). -/
theorem get_items_pagination {α : Type} (table : Table α) (fuel : Nat)
    (index_name kce : String) (fce : Option String) (sif : Option Bool)
    (ps : List (Page α))
    (hchain : chainOf (fun k => table (build_query index_name kce fce sif) (some k))
        fuel (table (build_query index_name kce fce sif) none) = some ps)
    (hstatus : ∀ q ∈ ps, q.status = 200)
    (hne : pagesItems ps ≠ []) :
    get_items_by_query_from_dynamo table fuel index_name kce fce sif =
      .ok (some (pagesItems ps)) := by
  simp only [get_items_by_query_from_dynamo]
  rw [recursive_query_chainOf _ fuel _ ps [] hchain hstatus]
  simp [validate_response_dynamo_query, List.length_eq_zero, hne]

/-- C5 witness: three pages of 2, 2 and 1 rows chained by continuation tokens
yield the single ordered sequence of 5 rows, in page-then-row order. -/
theorem get_items_pagination_witness :
    get_items_by_query_from_dynamo
        (fun _ k => match k with
          | none => ⟨200, [1, 2], some 1⟩
          | some 1 => ⟨200, [3, 4], some 2⟩
          | some 2 => ⟨200, [5], none⟩
          | some _ => ⟨500, [], none⟩ : Table Nat)
        3 "Client-index" "k" none none = .ok (some [1, 2, 3, 4, 5]) :=
  get_items_pagination
    (fun _ k => match k with
      | none => ⟨200, [1, 2], some 1⟩
      | some 1 => ⟨200, [3, 4], some 2⟩
      | some 2 => ⟨200, [5], none⟩
      | some _ => ⟨500, [], none⟩)
    3 "Client-index" "k" none none
    [⟨200, [1, 2], some 1⟩, ⟨200, [3, 4], some 2⟩, ⟨200, [5], none⟩]
    (by decide) (by decide) (by decide)

/-- C6: the per-value coercion of `update_dynamic_fields_in_dynamo` leaves
booleans and integers unchanged and turns a float into the fixed-precision
decimal built from its string form; with no auto-timestamp field the builder
is time-independent — two invocations on the identical mapping build the
identical update expression, value set and caller-visible mapping — and
re-applying the built value set to the stored record leaves every attribute
of the final record unchanged. -/
theorem update_build_coercion_idem (fields : List (String × AttrVal))
    (t1 t2 : String) (record : List (String × AttrVal)) (k : String) :
    update_dynamic_build fields none t1 = update_dynamic_build fields none t2 ∧
    (∀ b, coerce_value (.vBool b) = .vBool b) ∧
    (∀ n, coerce_value (.vInt n) = .vInt n) ∧
    (∀ s, coerce_value (.vFloat s) = .vDec s) ∧
    alookup (apply_update (apply_update record
        (update_dynamic_build fields none t1).values_expression)
        (update_dynamic_build fields none t1).values_expression) k =
      alookup (apply_update record
        (update_dynamic_build fields none t1).values_expression) k :=
  ⟨rfl, fun _ => rfl, fun _ => rfl, fun _ => rfl,
    apply_update_idem_lookup record (update_dynamic_build fields none t1).values_expression k⟩

/-- C9 counterexample: `update_date_field = ""` is non-null but falsy, so
`if update_date_field:` skips the insertion: the caller's mapping stays
unchanged and carries no timestamp entry, against the claim's
"every non-null `update_date_field`" scope. -/
theorem update_build_empty_field_counterexample :
    (update_dynamic_build [("Amount", .vInt 1)] (some "")
        "2026-10-12T00:00:00").fields_after = [("Amount", .vInt 1)] ∧
    alookup (update_dynamic_build [("Amount", .vInt 1)] (some "")
        "2026-10-12T00:00:00").fields_after "" = none := by
  decide

/-- C9 amended: with a truthy (non-null, non-empty) `update_date_field`,
`update_dynamic_fields_in_dynamo` mutates the caller's `_fields_to_update`
dictionary in place: the mapping the caller holds after the call carries the
timestamp entry, so — unless the caller's mapping already held exactly that
entry — it does not stay unchanged across the call. -/
theorem update_build_mutates_caller_mapping (fields : List (String × AttrVal))
    (f now : String) (hf : f ≠ "") (h : alookup fields f ≠ some (.vStr now)) :
    (update_dynamic_build fields (some f) now).fields_after =
      dictUpdate fields f (.vStr now) ∧
    alookup (update_dynamic_build fields (some f) now).fields_after f =
      some (.vStr now) ∧
    (update_dynamic_build fields (some f) now).fields_after ≠ fields := by
  have hfa : (update_dynamic_build fields (some f) now).fields_after =
      dictUpdate fields f (.vStr now) := by
    show (if f = "" then fields else dictUpdate fields f (.vStr now)) = _
    rw [if_neg hf]
  have h2 : alookup (dictUpdate fields f (.vStr now)) f = some (.vStr now) := by
    rw [alookup_dictUpdate]; simp
  refine ⟨hfa, ?_, ?_⟩
  · rw [hfa]
    exact h2
  · intro heq
    apply h
    calc alookup fields f
        = alookup (update_dynamic_build fields (some f) now).fields_after f := by rw [heq]
      _ = some (.vStr now) := by rw [hfa]; exact h2

/-- C9 witness: the amended theorem at the non-empty field name
`"LastUpdate"` and an empty caller mapping. -/
theorem update_build_mutates_caller_mapping_witness :
    (update_dynamic_build [] (some "LastUpdate") "2026-10-12T00:00:00").fields_after =
      dictUpdate [] "LastUpdate" (.vStr "2026-10-12T00:00:00") ∧
    alookup (update_dynamic_build [] (some "LastUpdate") "2026-10-12T00:00:00").fields_after
        "LastUpdate" = some (.vStr "2026-10-12T00:00:00") ∧
    (update_dynamic_build [] (some "LastUpdate") "2026-10-12T00:00:00").fields_after ≠ [] :=
  update_build_mutates_caller_mapping [] "LastUpdate" "2026-10-12T00:00:00"
    (by decide) (by decide)

/-- The final write-back of `validate_access`: the resulting
`status_preapproved` is either the overridden 5 or the (possibly remapped)
local status value. -/
theorem sp_writeback (r2 : AccessResponse) (sp : Int) :
    (if r2.status_preapproved ≠ 5 then { r2 with status_preapproved := sp }
      else r2).status_preapproved = 5 ∨
    (if r2.status_preapproved ≠ 5 then { r2 with status_preapproved := sp }
      else r2).status_preapproved = sp := by
  by_cases h5 : r2.status_preapproved = 5
  · rw [if_neg (by simp [h5])]
    exact Or.inl h5
  · rw [if_pos h5]
    exact Or.inr rfl

/-- C4 counterexample: with `client_id` absent, the returned `error` field is
the descriptive message built from the inputs, not the literal
`"invalid input"` the claim states. -/
theorem validate_access_missing_input_counterexample :
    (validate_access none (some "210045")
        ⟨none, none, fun _ => none⟩).1.error ≠ "invalid input" := by
  decide

/-- C4 amended: when `client_id` or `customer_id` is absent, `validate_access`
returns immediately — independently of the store, with no status-catalog
lookup — the default failure result, whose `error` field is the descriptive
message `"data to validate access is incorrect client_id: ... customer_id:
..."` rather than `"invalid input"`. -/
theorem validate_access_missing_input (cid kid : Option String)
    (env env' : AccessEnv) (h : cid = none ∨ kid = none) :
    validate_access cid kid env =
      ({ success := false
         error := "data to validate access is incorrect client_id: " ++
           pyOptStr cid ++ " customer_id: " ++ pyOptStr kid
         status_preapproved := 0
         flow := "dashboard"
         current_loan := none
         status_app := some "U"
         total_loans := 0
         access := false
         is_recurrent := false }, []) ∧
    validate_access cid kid env = validate_access cid kid env' := by
  unfold validate_access
  rw [if_pos h, if_pos h]
  exact ⟨rfl, rfl⟩

/-- C4 witness: the amended theorem at `client_id = None` and two different
stores. -/
theorem validate_access_missing_input_witness :
    validate_access none (some "210045") ⟨none, none, fun _ => none⟩ =
      ({ success := false
         error := "data to validate access is incorrect client_id: " ++
           pyOptStr none ++ " customer_id: " ++ pyOptStr (some "210045")
         status_preapproved := 0
         flow := "dashboard"
         current_loan := none
         status_app := some "U"
         total_loans := 0
         access := false
         is_recurrent := false }, []) ∧
    validate_access none (some "210045") ⟨none, none, fun _ => none⟩ =
      validate_access none (some "210045")
        ⟨some [], some ⟨none, none, false⟩, fun _ => none⟩ :=
  validate_access_missing_input none (some "210045") _ _ (Or.inl rfl)

/-- C3: with two or more fetched loans, the result grants access and success,
reports the fetched count, and `current_loan` is the last loan in
store-returned order whose status is primary (IN_PROCESS, REJECTED, ACTIVE,
LATE or EXPIRED), falling back to the last fetched loan when none matches —
whatever the offer and status catalog hold. -/
theorem validate_access_multi_loans (cid kid : Option String) (env : AccessEnv)
    (l : List Loan) (hcid : cid ≠ none) (hkid : kid ≠ none)
    (hl : env.loans = some l) (h2 : 2 ≤ l.length) :
    (validate_access cid kid env).1.access = true ∧
    (validate_access cid kid env).1.success = true ∧
    (validate_access cid kid env).1.total_loans = l.length ∧
    (validate_access cid kid env).1.current_loan =
      (match l.reverse.find? (fun loan => isPrimaryStatus loan.Status) with
        | some y => some y
        | none => l.getLast?) := by
  have hv : validate_access cid kid env = access_section2 env (access_section1 l) := by
    unfold validate_access
    rw [if_neg (fun hor => hor.elim hcid hkid), hl]
  rw [hv, access_section1_multi l h2]
  exact ⟨(access_section2_preserved env _).2.2.1 rfl,
    (access_section2_preserved env _).2.2.2 rfl,
    (access_section2_preserved env _).1,
    (access_section2_preserved env _).2.1⟩

/-- C3 witness: loans returned in order [REJECTED, ACTIVE, CLOSED] give
`current_loan` = the ACTIVE loan — the last qualifying match, not the first. -/
theorem validate_access_multi_loans_witness :
    (validate_access (some "c") (some "k")
        ⟨some [⟨some "REJECTED", 0⟩, ⟨some "ACTIVE", 1⟩, ⟨some "CLOSED", 2⟩],
          none, fun _ => none⟩).1.access = true ∧
    (validate_access (some "c") (some "k")
        ⟨some [⟨some "REJECTED", 0⟩, ⟨some "ACTIVE", 1⟩, ⟨some "CLOSED", 2⟩],
          none, fun _ => none⟩).1.success = true ∧
    (validate_access (some "c") (some "k")
        ⟨some [⟨some "REJECTED", 0⟩, ⟨some "ACTIVE", 1⟩, ⟨some "CLOSED", 2⟩],
          none, fun _ => none⟩).1.total_loans = 3 ∧
    (validate_access (some "c") (some "k")
        ⟨some [⟨some "REJECTED", 0⟩, ⟨some "ACTIVE", 1⟩, ⟨some "CLOSED", 2⟩],
          none, fun _ => none⟩).1.current_loan = some ⟨some "ACTIVE", 1⟩ := by
  have h := validate_access_multi_loans (some "c") (some "k")
    ⟨some [⟨some "REJECTED", 0⟩, ⟨some "ACTIVE", 1⟩, ⟨some "CLOSED", 2⟩],
      none, fun _ => none⟩
    [⟨some "REJECTED", 0⟩, ⟨some "ACTIVE", 1⟩, ⟨some "CLOSED", 2⟩]
    (by decide) (by decide) rfl (by decide)
  exact ⟨h.1, h.2.1, h.2.2.1, h.2.2.2.trans (by decide)⟩

/-- C1 counterexample: an offer with raw `StatusPreapproved = 5`, a non-`U`
`statusApp` (so the override branch does not fire) and a catalog row for code
2 only: the call succeeds, the single status-catalog lookup uses code 2, and
the returned `status_preapproved` is the remapped 2, not the raw 5 the claim
requires. -/
theorem validate_access_raw5_counterexample :
    (validate_access (some "c") (some "k")
        ⟨some [], some ⟨some 5, some "A", false⟩,
          fun n => if n = 2 then some ⟨some "X"⟩ else none⟩).1.success = true ∧
    (validate_access (some "c") (some "k")
        ⟨some [], some ⟨some 5, some "A", false⟩,
          fun n => if n = 2 then some ⟨some "X"⟩ else none⟩).2 = [2] ∧
    (validate_access (some "c") (some "k")
        ⟨some [], some ⟨some 5, some "A", false⟩,
          fun n => if n = 2 then some ⟨some "X"⟩ else none⟩).1.status_preapproved = 2 ∧
    (validate_access (some "c") (some "k")
        ⟨some [], some ⟨some 5, some "A", false⟩,
          fun n => if n = 2 then some ⟨some "X"⟩ else none⟩).1.status_preapproved ≠ 5 := by
  decide

/-- C1 amended: for every resolver call whose offer row has
`StatusPreapproved = 5` (inputs present, loan lookup succeeding, offer found,
catalog holding a row for code 2), the status-catalog lookup is performed with
code 2 — and only that lookup is issued — the call succeeds, and the returned
`status_preapproved` is either 5 (when the override branch set it) or the
remapped value 2: the raw 5 read from the offer is never written back, because
the remapping overwrote the local variable before the write-back. -/
theorem validate_access_remap_writeback (cid kid : Option String) (env : AccessEnv)
    (l : List Loan) (offer : Offer) (st : StatusRow)
    (hcid : cid ≠ none) (hkid : kid ≠ none) (hl : env.loans = some l)
    (ho : env.offer = some offer) (hm : offer.hasMessage = false)
    (hsp : offer.StatusPreapproved = some 5) (hfs : env.findStatus 2 = some st) :
    (validate_access cid kid env).2 = [2] ∧
    (validate_access cid kid env).1.success = true ∧
    ((validate_access cid kid env).1.status_preapproved = 5 ∨
      (validate_access cid kid env).1.status_preapproved = 2) := by
  have hv : validate_access cid kid env = access_section2 env (access_section1 l) := by
    unfold validate_access
    rw [if_neg (fun hor => hor.elim hcid hkid), hl]
  rw [hv]
  unfold access_section2
  rw [ho]
  dsimp only
  rw [hm, if_neg Bool.false_ne_true, hsp]
  dsimp only
  rw [if_pos rfl, hfs]
  dsimp only
  exact ⟨rfl, rfl, sp_writeback _ 2⟩

/-- C1 witness: the amended theorem at a concrete offer with raw status 5. -/
theorem validate_access_remap_writeback_witness :
    (validate_access (some "c") (some "k")
        ⟨some [], some ⟨some 5, some "A", false⟩,
          fun n => if n = 2 then some ⟨some "Y"⟩ else none⟩).2 = [2] ∧
    (validate_access (some "c") (some "k")
        ⟨some [], some ⟨some 5, some "A", false⟩,
          fun n => if n = 2 then some ⟨some "Y"⟩ else none⟩).1.success = true ∧
    ((validate_access (some "c") (some "k")
        ⟨some [], some ⟨some 5, some "A", false⟩,
          fun n => if n = 2 then some ⟨some "Y"⟩ else none⟩).1.status_preapproved = 5 ∨
      (validate_access (some "c") (some "k")
        ⟨some [], some ⟨some 5, some "A", false⟩,
          fun n => if n = 2 then some ⟨some "Y"⟩ else none⟩).1.status_preapproved = 2) :=
  validate_access_remap_writeback (some "c") (some "k")
    ⟨some [], some ⟨some 5, some "A", false⟩,
      fun n => if n = 2 then some ⟨some "Y"⟩ else none⟩
    [] ⟨some 5, some "A", false⟩ ⟨some "Y"⟩
    (by decide) (by decide) rfl rfl rfl rfl rfl

/-- C7: `compare_client_data` reports `success=true, edited=true` only if both
the `Client` write and the audit insert reported HTTP 200, and in that case it
has issued exactly one `Client` write and appended exactly one audit row
before reporting success; if the `Client` write fails it returns the failure
result before attempting the audit write, so no audit row exists. -/
theorem compare_client_data_write_order (env : CompareEnv) (data process : String)
    (im : Bool) :
    ((compare_client_data env data process im).resp.edited = true →
      (compare_client_data env data process im).resp.success = true ∧
      env.updateResp.hasMetadata = true ∧ env.updateResp.status = 200 ∧
      env.putResp.hasMetadata = true ∧ env.putResp.status = 200 ∧
      (compare_client_data env data process im).auditRows.length = 1 ∧
      (compare_client_data env data process im).clientWrites.length = 1) ∧
    ((env.updateResp.hasMetadata = false ∨ env.updateResp.status ≠ 200) →
      (compare_client_data env data process im).auditRows = [] ∧
      (compare_client_data env data process im).resp.edited = false) := by
  unfold compare_client_data
  repeat' split <;> try simp_all

/-- C7 witness: a mismatching stored msisdn with both writes reporting 200
gives a successful, edited result with exactly one write of each kind. -/
theorem compare_client_data_write_order_witness :
    (compare_client_data
        ⟨.ok (some ⟨.mdict [("CLIENT_ID", "42")]⟩),
          fun id => if id = "42" then some ⟨"C1", some "111"⟩ else none,
          ⟨true, 200⟩, ⟨true, 200⟩, "uuid-1", "t0"⟩
        "222" "Login" true).resp.success = true ∧
    (⟨.ok (some ⟨.mdict [("CLIENT_ID", "42")]⟩),
        fun id => if id = "42" then some ⟨"C1", some "111"⟩ else none,
        ⟨true, 200⟩, ⟨true, 200⟩, "uuid-1", "t0"⟩ : CompareEnv).updateResp.hasMetadata = true ∧
    (⟨.ok (some ⟨.mdict [("CLIENT_ID", "42")]⟩),
        fun id => if id = "42" then some ⟨"C1", some "111"⟩ else none,
        ⟨true, 200⟩, ⟨true, 200⟩, "uuid-1", "t0"⟩ : CompareEnv).updateResp.status = 200 ∧
    (⟨.ok (some ⟨.mdict [("CLIENT_ID", "42")]⟩),
        fun id => if id = "42" then some ⟨"C1", some "111"⟩ else none,
        ⟨true, 200⟩, ⟨true, 200⟩, "uuid-1", "t0"⟩ : CompareEnv).putResp.hasMetadata = true ∧
    (⟨.ok (some ⟨.mdict [("CLIENT_ID", "42")]⟩),
        fun id => if id = "42" then some ⟨"C1", some "111"⟩ else none,
        ⟨true, 200⟩, ⟨true, 200⟩, "uuid-1", "t0"⟩ : CompareEnv).putResp.status = 200 ∧
    (compare_client_data
        ⟨.ok (some ⟨.mdict [("CLIENT_ID", "42")]⟩),
          fun id => if id = "42" then some ⟨"C1", some "111"⟩ else none,
          ⟨true, 200⟩, ⟨true, 200⟩, "uuid-1", "t0"⟩
        "222" "Login" true).auditRows.length = 1 ∧
    (compare_client_data
        ⟨.ok (some ⟨.mdict [("CLIENT_ID", "42")]⟩),
          fun id => if id = "42" then some ⟨"C1", some "111"⟩ else none,
          ⟨true, 200⟩, ⟨true, 200⟩, "uuid-1", "t0"⟩
        "222" "Login" true).clientWrites.length = 1 :=
  (compare_client_data_write_order
    ⟨.ok (some ⟨.mdict [("CLIENT_ID", "42")]⟩),
      fun id => if id = "42" then some ⟨"C1", some "111"⟩ else none,
      ⟨true, 200⟩, ⟨true, 200⟩, "uuid-1", "t0"⟩
    "222" "Login" true).1 (by decide)

/-- C8: when the external profile is found and yields both a phone and an
external id but the internal `Client` lookup by that id returns no row,
`compare_client_data` returns `success=false, edited=false`, `idmts` equal to
the empty string (the attribute access on the absent client raises before the
`idmts` field is assigned and before the explicit client-is-`None` check, and
the catch-all handler returns the partial result, which already carries the
phone in `msisdn`), and performs no store write. -/
theorem compare_client_data_client_missing (env : CompareEnv) (data process : String)
    (im : Bool) (ci : InswitchClient) (cn id0 : String)
    (hins : env.inswitch = .ok (some ci))
    (hex : extract_profile im data ci = .ok (some cn, some id0))
    (hfc : env.findClient id0 = none) :
    compare_client_data env data process im = ⟨⟨false, false, none, cn, ""⟩, [], []⟩ := by
  unfold compare_client_data
  rw [hins]
  dsimp only
  rw [hex]
  dsimp only
  rw [hfc]

/-- C8 witness: a profile carrying phone and id whose id has no `Client` row. -/
theorem compare_client_data_client_missing_witness :
    compare_client_data
        ⟨.ok (some ⟨.mdict [("CLIENT_ID", "42")]⟩), fun _ => none,
          ⟨true, 200⟩, ⟨true, 200⟩, "uuid-1", "t0"⟩
        "222" "Login" true = ⟨⟨false, false, none, "222", ""⟩, [], []⟩ :=
  compare_client_data_client_missing
    ⟨.ok (some ⟨.mdict [("CLIENT_ID", "42")]⟩), fun _ => none,
      ⟨true, 200⟩, ⟨true, 200⟩, "uuid-1", "t0"⟩
    "222" "Login" true ⟨.mdict [("CLIENT_ID", "42")]⟩ "222" "42"
    rfl rfl rfl

end Lending
